import Mathlib

/-!
Shallow embedding of the stock trading system (src/trading_system.py).

Modelling conventions:
- SQL REAL columns (balances, prices, loan amounts) are modelled as `ℚ`
  (exact arithmetic; float rounding is abstracted away).
- SQL INTEGER columns (quantities) are modelled as `ℤ` (Python ints).
- SQL tables are modelled as association lists keyed by the unique column
  the code uses for lookups: users by id, stocks by symbol (the code keys
  stocks by an opaque uuid and looks them up by the UNIQUE symbol column;
  identifying a stock with its symbol is faithful because symbol is UNIQUE),
  portfolios by the UNIQUE (user_id, stock_id) pair.  Append-only audit
  tables (transactions, loans, price history) are plain lists, appended at
  the right end.
- Opaque uuid4 values are not modelled; results carry the numeric payloads.
- `symbol.upper()` normalisation is omitted: symbols are abstract keys and
  every claim is invariant under the normalisation.
- Each engine operation returns `(result, next state)`; a failure (including
  a Python exception caught by the `except` clause, which triggers
  `conn.rollback()`) returns the state unchanged, mirroring the single
  SQLite transaction per call.
-/

/-- Association-list lookup: first entry whose key matches, like a SQL
SELECT on a UNIQUE-keyed table. -/
def lookupA [DecidableEq α] (key : α) : List (α × β) → Option β
  | [] => none
  | (k, v) :: rest => if k = key then some v else lookupA key rest

/-- Association-list update in place: replaces the value at the first entry
whose key matches, like a SQL UPDATE on a UNIQUE-keyed table; a missing key
leaves the list unchanged. -/
def updateA [DecidableEq α] (key : α) (val : β) : List (α × β) → List (α × β)
  | [] => []
  | (k, v) :: rest => if k = key then (key, val) :: rest else (k, v) :: updateA key val rest

/-- Association-list delete: removes the first entry whose key matches, like
a SQL DELETE on a UNIQUE-keyed table (the UNIQUE(user_id, stock_id)
constraint guarantees at most one matching row). -/
def eraseA [DecidableEq α] (key : α) : List (α × β) → List (α × β)
  | [] => []
  | (k, v) :: rest => if k = key then rest else (k, v) :: eraseA key rest

/-- Row of the `users` table (id is the association key). -/
structure User where
  username : String
  balance : ℚ
  loan_amount : ℚ
  max_loan : ℚ
deriving DecidableEq

/-- Row of the `stocks` table (symbol is the association key). -/
structure Stock where
  name : String
  current_price : ℚ
  available_quantity : ℤ
deriving DecidableEq

/-- Row of the `user_portfolios` table ((user_id, stock symbol) is the key). -/
structure Position where
  quantity : ℤ
  avg_buy_price : ℚ
deriving DecidableEq

/-- The `transaction_type` column. -/
inductive TxnType where
  | BUY
  | SELL
deriving DecidableEq

/-- Row of the `transactions` audit table. -/
structure Txn where
  user_id : String
  stock_id : String
  transaction_type : TxnType
  quantity : ℤ
  price : ℚ
  total_amount : ℚ
deriving DecidableEq

/-- Row of the `loans` audit table; interest_rate defaults to 0.05. -/
structure LoanRec where
  user_id : String
  amount : ℚ
  interest_rate : ℚ
deriving DecidableEq

/-- Whole database state. -/
structure TradingState where
  users : List (String × User)
  stocks : List (String × Stock)
  portfolios : List ((String × String) × Position)
  transactions : List Txn
  loans : List LoanRec
  history : List (String × ℚ)
deriving DecidableEq

/-- The empty database right after `init_database`. -/
def emptyState : TradingState := ⟨[], [], [], [], [], []⟩

/-- Result of `buy_stock`. -/
inductive BuyResult where
  | stockNotFound
  | insufficientStock
  | userNotFound
  | insufficientBalance
  | caughtError
  | success (price total_cost new_balance : ℚ)
deriving DecidableEq

/-- Result of `sell_stock`.  `caughtError` is the `except Exception` path
(the code reads `user['balance']` without checking that the user row
exists; a missing user raises TypeError, which is caught and rolled back). -/
inductive SellResult where
  | stockNotFound
  | insufficientPosition
  | caughtError
  | success (price total_earnings new_balance : ℚ)
deriving DecidableEq

/-- Result of `take_loan`. -/
inductive LoanResult where
  | userNotFound
  | limitExceeded (max_loan : ℚ)
  | success (amount new_balance total_loan : ℚ)
deriving DecidableEq

/-- Result of `register_stock`. -/
inductive RegisterResult where
  | alreadyExists
  | success
deriving DecidableEq

/-- StockTradingSystem.buy_stock (src/trading_system.py lines 321-416).
Checks, in source order: stock exists, quantity ≤ available, user exists,
balance covers cost; then debits the balance, decrements availability,
upserts the portfolio position (weighted-average price on update), and
appends a BUY transaction, all committed atomically.  The
`pos.quantity + quantity = 0` guard is the ZeroDivisionError the Python
`new_avg` division would raise, caught by `except` and rolled back. -/
def buy_stock (s : TradingState) (user_id symbol : String) (quantity : ℤ) :
    BuyResult × TradingState :=
  match lookupA symbol s.stocks with
  | none => (BuyResult.stockNotFound, s)
  | some stock =>
    if quantity > stock.available_quantity then
      (BuyResult.insufficientStock, s)
    else
      match lookupA user_id s.users with
      | none => (BuyResult.userNotFound, s)
      | some user =>
        if user.balance < stock.current_price * (quantity : ℚ) then
          (BuyResult.insufficientBalance, s)
        else
          match lookupA (user_id, symbol) s.portfolios with
          | some pos =>
            if pos.quantity + quantity = 0 then
              (BuyResult.caughtError, s)
            else
              (BuyResult.success stock.current_price (stock.current_price * (quantity : ℚ))
                  (user.balance - stock.current_price * (quantity : ℚ)),
               { s with
                 users := updateA user_id
                   { user with balance := user.balance - stock.current_price * (quantity : ℚ) }
                   s.users,
                 stocks := updateA symbol
                   { stock with available_quantity := stock.available_quantity - quantity }
                   s.stocks,
                 portfolios := updateA (user_id, symbol)
                   ⟨pos.quantity + quantity,
                    ((pos.quantity : ℚ) * pos.avg_buy_price +
                        (quantity : ℚ) * stock.current_price) /
                      ((pos.quantity + quantity : ℤ) : ℚ)⟩
                   s.portfolios,
                 transactions := s.transactions ++
                   [⟨user_id, symbol, TxnType.BUY, quantity, stock.current_price,
                     stock.current_price * (quantity : ℚ)⟩] })
          | none =>
            (BuyResult.success stock.current_price (stock.current_price * (quantity : ℚ))
                (user.balance - stock.current_price * (quantity : ℚ)),
             { s with
               users := updateA user_id
                 { user with balance := user.balance - stock.current_price * (quantity : ℚ) }
                 s.users,
               stocks := updateA symbol
                 { stock with available_quantity := stock.available_quantity - quantity }
                 s.stocks,
               portfolios := s.portfolios ++
                 [((user_id, symbol), ⟨quantity, stock.current_price⟩)],
               transactions := s.transactions ++
                 [⟨user_id, symbol, TxnType.BUY, quantity, stock.current_price,
                   stock.current_price * (quantity : ℚ)⟩] })

/-- StockTradingSystem.sell_stock (src/trading_system.py lines 418-500).
Checks, in source order: stock exists, a position exists with enough
quantity; the user row is then read without an existence check (`user` may
be None, making `user['balance']` raise, caught as `caughtError` with
rollback).  On success: credits the balance, increments availability,
decrements or deletes the position (avg_buy_price untouched), and appends a
SELL transaction. -/
def sell_stock (s : TradingState) (user_id symbol : String) (quantity : ℤ) :
    SellResult × TradingState :=
  match lookupA symbol s.stocks with
  | none => (SellResult.stockNotFound, s)
  | some stock =>
    match lookupA (user_id, symbol) s.portfolios with
    | none => (SellResult.insufficientPosition, s)
    | some pos =>
      if pos.quantity < quantity then
        (SellResult.insufficientPosition, s)
      else
        match lookupA user_id s.users with
        | none => (SellResult.caughtError, s)
        | some user =>
          (SellResult.success stock.current_price (stock.current_price * (quantity : ℚ))
              (user.balance + stock.current_price * (quantity : ℚ)),
           { s with
             users := updateA user_id
               { user with balance := user.balance + stock.current_price * (quantity : ℚ) }
               s.users,
             stocks := updateA symbol
               { stock with available_quantity := stock.available_quantity + quantity }
               s.stocks,
             portfolios :=
               if pos.quantity - quantity = 0 then
                 eraseA (user_id, symbol) s.portfolios
               else
                 updateA (user_id, symbol) ⟨pos.quantity - quantity, pos.avg_buy_price⟩
                   s.portfolios,
             transactions := s.transactions ++
               [⟨user_id, symbol, TxnType.SELL, quantity, stock.current_price,
                 stock.current_price * (quantity : ℚ)⟩] })

/-- StockTradingSystem.take_loan (src/trading_system.py lines 275-319).
User must exist; if current_loan + amount > max_loan the call fails with the
limit message and no mutation; otherwise the balance and loan_amount are
credited and a loan row (default interest_rate 0.05) is appended. -/
def take_loan (s : TradingState) (user_id : String) (amount : ℚ) :
    LoanResult × TradingState :=
  match lookupA user_id s.users with
  | none => (LoanResult.userNotFound, s)
  | some user =>
    if user.loan_amount + amount > user.max_loan then
      (LoanResult.limitExceeded user.max_loan, s)
    else
      (LoanResult.success amount (user.balance + amount) (user.loan_amount + amount),
       { s with
         users := updateA user_id
           { user with
             balance := user.balance + amount,
             loan_amount := user.loan_amount + amount }
           s.users,
         loans := s.loans ++ [⟨user_id, amount, 5 / 100⟩] })

/-- StockTradingSystem.register_stock (src/trading_system.py lines 221-246).
The price is clamped into [1, 100] before insertion; the INSERT raises
IntegrityError exactly when the UNIQUE symbol already exists (modelled as
the lookup guard); on success one stock row and one initial price-history
row are written. -/
def register_stock (s : TradingState) (symbol name : String) (price : ℚ) (quantity : ℤ) :
    RegisterResult × TradingState :=
  match lookupA symbol s.stocks with
  | some _ => (RegisterResult.alreadyExists, s)
  | none =>
    (RegisterResult.success,
     { s with
       stocks := s.stocks ++ [(symbol, ⟨name, max 1 (min 100 price), quantity⟩)],
       history := s.history ++ [(symbol, max 1 (min 100 price))] })

/-- One stock's price move in update_stock_prices: the drawn perturbation is
applied multiplicatively and the result clamped into [1, 100]. -/
def tickPrice (current_price factor : ℚ) : ℚ :=
  max 1 (min 100 (current_price * (1 + factor)))

/-- StockTradingSystem.update_stock_prices (src/trading_system.py lines
189-219).  Every stock's current_price is perturbed by its drawn factor
(`random.uniform(-0.1, 0.1)` in the source; here an arbitrary per-symbol
draw, since the clamp must hold for every factor) and clamped into [1, 100];
one price-history row is appended per stock. -/
def update_stock_prices (factors : String → ℚ) (s : TradingState) : TradingState :=
  { s with
    stocks := s.stocks.map (fun e => (e.1, { e.2 with
      current_price := tickPrice e.2.current_price (factors e.1) })),
    history := s.history ++ s.stocks.map (fun e =>
      (e.1, tickPrice e.2.current_price (factors e.1))) }

/-- The sample stocks seeded by setup_initial_data: (symbol, name, price,
quantity), exactly as in the source (AAPL is seeded at 150.0). -/
def sample_stocks : List (String × String × ℚ × ℤ) :=
  [("AAPL", "Apple Inc.", 150, 1000),
   ("GOOGL", "Alphabet Inc.", 80, 800),
   ("MSFT", "Microsoft Corp.", 90, 900),
   ("TSLA", "Tesla Inc.", 75, 600),
   ("AMZN", "Amazon.com Inc.", 85, 700)]

/-- StockTradingSystem.setup_initial_data (src/trading_system.py lines
118-161).  If the stocks table is empty, the five sample stocks are inserted
as-is (no clamping) with one initial price-history row each; if the users
table is empty, ten users with balance 10000 are inserted (opaque uuid ids
modelled as the deterministic strings "user_1".."user_10"). -/
def setup_initial_data (s : TradingState) : TradingState :=
  let s1 :=
    if s.stocks.isEmpty then
      { s with
        stocks := s.stocks ++ sample_stocks.map (fun e =>
          (e.1, ⟨e.2.1, e.2.2.1, e.2.2.2⟩)),
        history := s.history ++ sample_stocks.map (fun e => (e.1, e.2.2.1)) }
    else s
  if s1.users.isEmpty then
    { s1 with
      users := s1.users ++ (List.range 10).map (fun i =>
        ("user_" ++ toString (i + 1),
         ⟨"user_" ++ toString (i + 1), 10000, 0, 100000⟩)) }
  else s1

/-!
Embedding of get_stock_report (src/trading_system.py lines 589-625), per
stock group.  The SQL query left-joins `stocks` with `transactions` and
independently with `stock_price_history` on the stock id and groups by the
stock, so one group's rows are the cross product of the stock's transaction
rows and its history rows (with NULL padding when either side is empty).
The aggregates follow SQL semantics: COUNT counts non-NULL values, the
CASE sums treat a NULL transaction as the ELSE 0 branch, AVG/MAX/MIN ignore
NULLs and are NULL on an all-NULL column.
-/

/-- Left-join null padding of the transaction side of one stock group. -/
def txnRows (txns : List Txn) : List (Option Txn) :=
  match txns with
  | [] => [none]
  | _ => txns.map some

/-- Left-join of one transaction-side row against the history side. -/
def histJoin (t : Option Txn) (hist : List ℚ) : List (Option Txn × Option ℚ) :=
  match hist with
  | [] => [(t, none)]
  | _ => hist.map (fun h => (t, some h))

/-- All joined rows of one stock's group in the report query. -/
def reportRows (txns : List Txn) (hist : List ℚ) : List (Option Txn × Option ℚ) :=
  (txnRows txns).foldr (fun t acc => histJoin t hist ++ acc) []

/-- SQL AVG over a column with the NULLs already removed. -/
def sqlAvg (l : List ℚ) : Option ℚ :=
  match l with
  | [] => none
  | _ => some ((l.foldr (· + ·) 0) / (l.length : ℚ))

/-- SQL MAX over a column with the NULLs already removed. -/
def sqlMax (l : List ℚ) : Option ℚ :=
  l.foldr (fun x acc => match acc with | none => some x | some y => some (max x y)) none

/-- SQL MIN over a column with the NULLs already removed. -/
def sqlMin (l : List ℚ) : Option ℚ :=
  l.foldr (fun x acc => match acc with | none => some x | some y => some (min x y)) none

/-- One output row of get_stock_report. -/
structure StockReportRow where
  transaction_count : ℕ
  total_bought : ℤ
  total_sold : ℤ
  avg_transaction_price : Option ℚ
  max_price : Option ℚ
  min_price : Option ℚ
  volatility_percent : ℚ
deriving DecidableEq

/-- get_stock_report for one stock group, parameterised by that stock's
transaction rows and price-history rows.  `COUNT(t.id)` counts joined rows
with a non-NULL transaction; the CASE sums add `t.quantity` per joined row;
`AVG(t.price)`, `MAX(sph.price)`, `MIN(sph.price)` ignore NULLs; the Python
post-processing sets volatility_percent to (max−min)/min·100 when both
aggregates are truthy (non-NULL and non-zero) and 0 otherwise. -/
def get_stock_report (txns : List Txn) (hist : List ℚ) : StockReportRow :=
  let rows := reportRows txns hist
  let tvals := rows.filterMap (fun r => r.1)
  let hvals := rows.filterMap (fun r => r.2)
  let mx := sqlMax hvals
  let mn := sqlMin hvals
  { transaction_count := tvals.length,
    total_bought := (tvals.filter (fun t => t.transaction_type = TxnType.BUY)).foldr
      (fun t acc => t.quantity + acc) 0,
    total_sold := (tvals.filter (fun t => t.transaction_type = TxnType.SELL)).foldr
      (fun t acc => t.quantity + acc) 0,
    avg_transaction_price := sqlAvg (tvals.map (fun t => t.price)),
    max_price := mx,
    min_price := mn,
    volatility_percent :=
      match mx, mn with
      | some a, some b => if a ≠ 0 ∧ b ≠ 0 then ((a - b) / b) * 100 else 0
      | _, _ => 0 }

/-- The transactions of one stock in a state, in audit order. -/
def stockTxns (s : TradingState) (symbol : String) : List Txn :=
  s.transactions.filter (fun t => t.stock_id = symbol)

/-- The price-history rows of one stock in a state, in audit order. -/
def stockHist (s : TradingState) (symbol : String) : List ℚ :=
  (s.history.filter (fun e => e.1 = symbol)).map (fun e => e.2)

/-!
Association-list lemmas used by the conservation proof.
-/

theorem lookupA_updateA_self [DecidableEq α] (l : List (α × β)) (k : α) (v w : β)
    (h : lookupA k l = some w) : lookupA k (updateA k v l) = some v := by
  induction l with
  | nil => simp [lookupA] at h
  | cons e rest ih =>
    by_cases he : e.1 = k
    · simp [lookupA, updateA, he]
    · simp [lookupA, updateA, he] at h ⊢
      exact ih h

theorem lookupA_updateA_ne [DecidableEq α] (l : List (α × β)) (k key : α) (v : β)
    (h : key ≠ k) : lookupA k (updateA key v l) = lookupA k l := by
  induction l with
  | nil => simp [updateA]
  | cons e rest ih =>
    by_cases he : e.1 = key
    · simp [lookupA, updateA, he, h]
    · simp [lookupA, updateA, he]
      by_cases hk : e.1 = k <;> simp [hk, ih]

theorem lookupA_append_right [DecidableEq α] (l : List (α × β)) (k : α) (v : β)
    (h : lookupA k l = none) : lookupA k (l ++ [(k, v)]) = some v := by
  induction l with
  | nil => simp [lookupA]
  | cons e rest ih =>
    by_cases he : e.1 = k
    · simp [lookupA, he] at h
    · simp [lookupA, he] at h ⊢
      exact ih h

/-- Total stock units held across all portfolio rows for one symbol. -/
def heldQty (symbol : String) : List ((String × String) × Position) → ℤ
  | [] => 0
  | (k, p) :: rest => (if k.2 = symbol then p.quantity else 0) + heldQty symbol rest

theorem heldQty_updateA (l : List ((String × String) × Position))
    (k : String × String) (v p : Position) (h : lookupA k l = some p) (symbol : String) :
    heldQty symbol (updateA k v l) =
      heldQty symbol l + (if k.2 = symbol then v.quantity - p.quantity else 0) := by
  induction l with
  | nil => simp [lookupA] at h
  | cons e rest ih =>
    obtain ⟨ek, ev⟩ := e
    by_cases he : ek = k
    · subst he
      simp only [lookupA, if_pos] at h
      cases h
      simp only [updateA, if_pos, heldQty]
      split <;> ring
    · rw [lookupA, if_neg he] at h
      rw [updateA, if_neg he, heldQty, heldQty, ih h]
      ring

theorem heldQty_append (l : List ((String × String) × Position))
    (k : String × String) (p : Position) (symbol : String) :
    heldQty symbol (l ++ [(k, p)]) =
      heldQty symbol l + (if k.2 = symbol then p.quantity else 0) := by
  induction l with
  | nil => simp [heldQty]
  | cons e rest ih =>
    obtain ⟨ek, ev⟩ := e
    rw [List.cons_append, heldQty, heldQty, ih]
    ring

theorem heldQty_eraseA (l : List ((String × String) × Position))
    (k : String × String) (p : Position) (h : lookupA k l = some p) (symbol : String) :
    heldQty symbol (eraseA k l) =
      heldQty symbol l - (if k.2 = symbol then p.quantity else 0) := by
  induction l with
  | nil => simp [lookupA] at h
  | cons e rest ih =>
    obtain ⟨ek, ev⟩ := e
    by_cases he : ek = k
    · subst he
      simp only [lookupA, if_pos] at h
      cases h
      simp only [eraseA, if_pos, heldQty]
      split <;> ring
    · rw [lookupA, if_neg he] at h
      rw [eraseA, if_neg he, heldQty, heldQty, ih h]
      ring

/-- Available units of one symbol in a state (0 when the stock is absent). -/
def availOf (symbol : String) (s : TradingState) : ℤ :=
  ((lookupA symbol s.stocks).map Stock.available_quantity).getD 0

/-- Conserved quantity of the conservation law: on-venue units plus all
units held in portfolios, per symbol. -/
def totalUnits (symbol : String) (s : TradingState) : ℤ :=
  availOf symbol s + heldQty symbol s.portfolios

theorem buy_totalUnits (s : TradingState) (user_id symbol : String) (quantity : ℤ)
    (sym : String) :
    totalUnits sym (buy_stock s user_id symbol quantity).2 = totalUnits sym s := by
  unfold buy_stock
  split
  · rfl
  next stock hst =>
    split
    · rfl
    next hq =>
      split
      · rfl
      next user hu =>
        split
        · rfl
        next hb =>
          split
          next pos hpos =>
            split
            · rfl
            next hz =>
              simp only [totalUnits, availOf, heldQty_updateA _ _ _ _ hpos]
              by_cases hss : symbol = sym
              · subst hss
                rw [lookupA_updateA_self _ _ _ _ hst, hst]
                simp
              · rw [lookupA_updateA_ne _ _ _ _ hss]
                simp only [if_neg hss]
                ring
          next hpos =>
            simp only [totalUnits, availOf, heldQty_append]
            by_cases hss : symbol = sym
            · subst hss
              rw [lookupA_updateA_self _ _ _ _ hst, hst]
              simp
            · rw [lookupA_updateA_ne _ _ _ _ hss]
              simp only [if_neg hss]
              ring

theorem sell_totalUnits (s : TradingState) (user_id symbol : String) (quantity : ℤ)
    (sym : String) :
    totalUnits sym (sell_stock s user_id symbol quantity).2 = totalUnits sym s := by
  unfold sell_stock
  split
  · rfl
  next stock hst =>
    split
    · rfl
    next pos hpos =>
      split
      · rfl
      next hq =>
        split
        · rfl
        next user hu =>
          simp only [totalUnits, availOf]
          by_cases hz : pos.quantity - quantity = 0
          · rw [if_pos hz]
            simp only [heldQty_eraseA _ _ _ hpos]
            by_cases hss : symbol = sym
            · subst hss
              rw [lookupA_updateA_self _ _ _ _ hst, hst]
              simp
              have hpq : pos.quantity = quantity := by omega
              rw [hpq]
              ring
            · rw [lookupA_updateA_ne _ _ _ _ hss]
              simp only [if_neg hss]
              ring
          · rw [if_neg hz]
            simp only [heldQty_updateA _ _ _ _ hpos]
            by_cases hss : symbol = sym
            · subst hss
              rw [lookupA_updateA_self _ _ _ _ hst, hst]
              simp
              ring
            · rw [lookupA_updateA_ne _ _ _ _ hss]
              simp only [if_neg hss]
              ring

/-- One committed trade-engine transition: a buy_stock or sell_stock call
with arbitrary arguments (a failed call leaves the state unchanged, so every
call is a step). -/
inductive TradeStep : TradingState → TradingState → Prop where
  | buy (s : TradingState) (user_id symbol : String) (quantity : ℤ) :
      TradeStep s (buy_stock s user_id symbol quantity).2
  | sell (s : TradingState) (user_id symbol : String) (quantity : ℤ) :
      TradeStep s (sell_stock s user_id symbol quantity).2

/-- States reachable from a start state by any sequence of buy/sell calls. -/
inductive TradeReachable : TradingState → TradingState → Prop where
  | refl (s : TradingState) : TradeReachable s s
  | step (s t r : TradingState) :
      TradeReachable s t → TradeStep t r → TradeReachable s r

/-- C1: for every stock, in every state reachable from registration by any
sequence of committed buy and sell operations, available_quantity plus the
sum of all portfolio-position quantities for that stock equals its value at
registration time (the minted quantity): buy moves `quantity` units from the
venue to the position and sell moves them back, so `totalUnits` is invariant
under every buy_stock/sell_stock call. -/
theorem conservation_of_minted_units (s0 s : TradingState)
    (h : TradeReachable s0 s) (sym : String) :
    totalUnits sym s = totalUnits sym s0 := by
  induction h with
  | refl => rfl
  | step t r ht hstep ih =>
    cases hstep with
    | buy user_id symbol quantity => rw [buy_totalUnits, ih]
    | sell user_id symbol quantity => rw [sell_totalUnits, ih]

/-- Witness for C1: from the seeded initial state, one committed buy of 10
AAPL leaves available_quantity + held quantity for AAPL at the minted 1000. -/
theorem conservation_of_minted_units_witness :
    totalUnits "AAPL" (buy_stock (setup_initial_data emptyState) "user_1" "AAPL" 10).2 =
        totalUnits "AAPL" (setup_initial_data emptyState) ∧
    totalUnits "AAPL" (setup_initial_data emptyState) = 1000 :=
  ⟨conservation_of_minted_units (setup_initial_data emptyState) _
      (TradeReachable.step _ _ _ (TradeReachable.refl _)
        (TradeStep.buy (setup_initial_data emptyState) "user_1" "AAPL" 10)) "AAPL",
   by decide⟩

/-- A state with one user holding balance 0, no loan, max_loan 100000 (the
schema defaults), used to exercise take_loan on a negative amount. -/
def negLoanState : TradingState :=
  { emptyState with users := [("u1", ⟨"u1", 0, 0, 100000⟩)] }

/-- C2: the non-negative-balance invariant fails on the code.  take_loan
performs no positivity check on `amount`, and a negative amount passes the
loan-limit test (0 + (−100) ≤ 100000), so the call commits and leaves the
user's balance at −100 < 0. -/
theorem take_loan_negative_amount_breaks_balance :
    (take_loan negLoanState "u1" (-100)).1 =
        LoanResult.success (-100) (-100) (-100) ∧
    lookupA "u1" (take_loan negLoanState "u1" (-100)).2.users =
        some ⟨"u1", -100, -100, 100000⟩ ∧
    ((-100 : ℚ) < 0) := by
  norm_num [take_loan, negLoanState, emptyState, lookupA, updateA]

/-- A state with an existing position (10 units at average price 50) in a
stock now priced 80, for the weighted-average claim. -/
def avgState : TradingState :=
  { emptyState with
    users := [("u1", ⟨"u1", 10000, 0, 100000⟩)],
    stocks := [("AAPL", ⟨"Apple Inc.", 80, 500⟩)],
    portfolios := [(("u1", "AAPL"), ⟨10, 50⟩)] }

/-- C3: a successful buy into an existing position of old_qty units at
average old_avg, of `quantity` units at the execution price (the stock's
current_price), updates the position to old_qty + quantity units at average
(old_qty·old_avg + quantity·price)/(old_qty + quantity). -/
theorem buy_weighted_average (s : TradingState) (user_id symbol : String)
    (quantity : ℤ) (stock : Stock) (user : User) (pos : Position)
    (hst : lookupA symbol s.stocks = some stock)
    (hq : ¬quantity > stock.available_quantity)
    (hu : lookupA user_id s.users = some user)
    (hb : ¬user.balance < stock.current_price * (quantity : ℚ))
    (hpos : lookupA (user_id, symbol) s.portfolios = some pos)
    (hz : ¬pos.quantity + quantity = 0) :
    (buy_stock s user_id symbol quantity).1 =
        BuyResult.success stock.current_price (stock.current_price * (quantity : ℚ))
          (user.balance - stock.current_price * (quantity : ℚ)) ∧
    lookupA (user_id, symbol) (buy_stock s user_id symbol quantity).2.portfolios =
        some ⟨pos.quantity + quantity,
          ((pos.quantity : ℚ) * pos.avg_buy_price + (quantity : ℚ) * stock.current_price) /
            ((pos.quantity + quantity : ℤ) : ℚ)⟩ := by
  unfold buy_stock
  rw [hst]
  dsimp only
  rw [if_neg hq, hu]
  dsimp only
  rw [if_neg hb, hpos]
  dsimp only
  rw [if_neg hz]
  exact ⟨rfl, lookupA_updateA_self _ _ _ _ hpos⟩

/-- Witness for C3: after buys of 10@50 and 30@80 the position holds 40
units at average (10·50 + 30·80)/40 = 72.5. -/
theorem buy_weighted_average_witness :
    lookupA ("u1", "AAPL") (buy_stock avgState "u1" "AAPL" 30).2.portfolios =
        some ⟨40, 145 / 2⟩ := by
  have h := buy_weighted_average avgState "u1" "AAPL" 30 ⟨"Apple Inc.", 80, 500⟩
      ⟨"u1", 10000, 0, 100000⟩ ⟨10, 50⟩ rfl (by decide) rfl (by norm_num) rfl (by decide)
  rw [h.2]
  norm_num

/-- A state with one funded user and one stock, used to show that a buy of
quantity 0 is accepted and committed. -/
def zeroQtyState : TradingState :=
  { emptyState with
    users := [("u1", ⟨"u1", 1000, 0, 100000⟩)],
    stocks := [("AAPL", ⟨"Apple Inc.", 50, 100⟩)] }

/-- C5: no INVALID_ARGUMENT validation exists.  buy_stock with quantity 0
passes every check (0 ≤ available, cost 0 ≤ balance), commits, creates a
quantity-0 position, and appends a BUY audit record — instead of being
rejected before any transaction opens with no state change. -/
theorem buy_zero_quantity_commits :
    (buy_stock zeroQtyState "u1" "AAPL" 0).1 = BuyResult.success 50 0 1000 ∧
    (buy_stock zeroQtyState "u1" "AAPL" 0).2 ≠ zeroQtyState ∧
    lookupA ("u1", "AAPL") (buy_stock zeroQtyState "u1" "AAPL" 0).2.portfolios =
        some ⟨0, 50⟩ ∧
    (buy_stock zeroQtyState "u1" "AAPL" 0).2.transactions =
        [⟨"u1", "AAPL", TxnType.BUY, 0, 50, 0⟩] := by
  refine ⟨?_, ?_, ?_, ?_⟩ <;>
    norm_num [buy_stock, zeroQtyState, emptyState, lookupA, updateA, TradingState.mk.injEq]

/-- A state with one stock and no users at all, used for the sell-with-
unknown-user claim. -/
def ghostSellState : TradingState :=
  { emptyState with stocks := [("AAPL", ⟨"Apple Inc.", 50, 100⟩)] }

/-- C6 as stated is false: selling with an existing stock and a nonexistent
user returns the insufficient-position failure ("Insufficient stocks to
sell"), because the portfolio check runs before any user-existence check
and a nonexistent user has no portfolio row. -/
theorem sell_unknown_user_counterexample :
    (sell_stock ghostSellState "ghost" "AAPL" 1).1 = SellResult.insufficientPosition ∧
    (sell_stock ghostSellState "ghost" "AAPL" 1).2 = ghostSellState := by
  norm_num [sell_stock, ghostSellState, emptyState, lookupA]

/-- C6 amended: for every sell where the stock exists, the user does not
exist, and (as in every reachable state, positions being created only by
buys of existing users) no portfolio row exists for the pair, the result is
the INSUFFICIENT_POSITION failure and no entity state changes. -/
theorem sell_unknown_user_insufficient_position (s : TradingState)
    (user_id symbol : String) (quantity : ℤ) (stock : Stock)
    (hst : lookupA symbol s.stocks = some stock)
    (huser : lookupA user_id s.users = none)
    (hpf : lookupA (user_id, symbol) s.portfolios = none) :
    (sell_stock s user_id symbol quantity).1 = SellResult.insufficientPosition ∧
    (sell_stock s user_id symbol quantity).2 = s := by
  unfold sell_stock
  rw [hst]
  dsimp only
  rw [hpf]
  exact ⟨rfl, rfl⟩

/-- Witness for C6 amended: the concrete ghost-user sell. -/
theorem sell_unknown_user_insufficient_position_witness :
    (sell_stock ghostSellState "ghost" "AAPL" 3).1 = SellResult.insufficientPosition ∧
    (sell_stock ghostSellState "ghost" "AAPL" 3).2 = ghostSellState :=
  sell_unknown_user_insufficient_position ghostSellState "ghost" "AAPL" 3
    ⟨"Apple Inc.", 50, 100⟩ rfl rfl rfl

/-- C7: take_loan on an existing user credits balance and loan_amount by
exactly the amount and appends one loan record when the limit allows it, and
fails with LOAN_LIMIT_EXCEEDED leaving the state untouched when
loan_amount + amount exceeds max_loan. -/
theorem take_loan_spec (s : TradingState) (user_id : String) (amount : ℚ) (user : User)
    (hu : lookupA user_id s.users = some user) :
    (user.loan_amount + amount ≤ user.max_loan →
      (take_loan s user_id amount).1 =
          LoanResult.success amount (user.balance + amount) (user.loan_amount + amount) ∧
      lookupA user_id (take_loan s user_id amount).2.users =
          some { user with
                 balance := user.balance + amount,
                 loan_amount := user.loan_amount + amount } ∧
      (take_loan s user_id amount).2.loans = s.loans ++ [⟨user_id, amount, 5 / 100⟩]) ∧
    (user.loan_amount + amount > user.max_loan →
      (take_loan s user_id amount).1 = LoanResult.limitExceeded user.max_loan ∧
      (take_loan s user_id amount).2 = s) := by
  unfold take_loan
  rw [hu]
  dsimp only
  constructor
  · intro hle
    rw [if_neg (not_lt.mpr hle)]
    exact ⟨rfl, lookupA_updateA_self _ _ _ _ hu, rfl⟩
  · intro hgt
    rw [if_pos hgt]
    exact ⟨rfl, rfl⟩

/-- A user with loan_amount 0 and max_loan 1000, for the loan-limit
scenario of the spec. -/
def loanUserState : TradingState :=
  { emptyState with users := [("u1", ⟨"u1", 10000, 0, 1000⟩)] }

/-- Witness for C7: the spec scenario — loan_amount 0, max_loan 1000,
request 1500 → LOAN_LIMIT_EXCEEDED and no state change. -/
theorem take_loan_spec_witness :
    (take_loan loanUserState "u1" 1500).1 = LoanResult.limitExceeded 1000 ∧
    (take_loan loanUserState "u1" 1500).2 = loanUserState :=
  (take_loan_spec loanUserState "u1" 1500 ⟨"u1", 10000, 0, 1000⟩ rfl).2
    (by norm_num)

/-- C4 counterexample: the claim includes the initial minting done by
setup_initial_data, but the seed inserts AAPL with current_price 150.0
without clamping, and 150 is outside [1, 100]. -/
theorem setup_seeds_price_out_of_range :
    lookupA "AAPL" (setup_initial_data emptyState).stocks =
        some ⟨"Apple Inc.", 150, 1000⟩ ∧
    ¬((150 : ℚ) ≤ 100) := by
  exact ⟨rfl, by norm_num⟩

/-- The clamp max(1, min(100, x)) always lands in [1, 100]. -/
theorem clamp_price_bounds (x : ℚ) : 1 ≤ max 1 (min 100 x) ∧ max 1 (min 100 x) ≤ 100 :=
  ⟨le_max_left 1 _, max_le (by norm_num) (min_le_left _ _)⟩

theorem lookupA_tick (factors : String → ℚ) (l : List (String × Stock)) (k : String) :
    lookupA k (l.map (fun e => (e.1, { e.2 with
        current_price := tickPrice e.2.current_price (factors e.1) }))) =
      (lookupA k l).map (fun v => { v with
        current_price := tickPrice v.current_price (factors k) }) := by
  induction l with
  | nil => rfl
  | cons e rest ih =>
    obtain ⟨ek, ev⟩ := e
    by_cases he : ek = k
    · subst he
      simp [lookupA]
    · simp [lookupA, he, ih]

/-- C4 amended: after register_stock (for every input price) and after every
update_stock_prices tick (for every drawn perturbation factor) the stored
current_price lies in [1, 100]; the initial sample-data seeding in
setup_initial_data is the one price mutation that does not clamp. -/
theorem price_bound_after_mutation :
    (∀ (s : TradingState) (symbol name : String) (price : ℚ) (quantity : ℤ) (st : Stock),
        lookupA symbol s.stocks = none →
        lookupA symbol (register_stock s symbol name price quantity).2.stocks = some st →
        1 ≤ st.current_price ∧ st.current_price ≤ 100) ∧
    (∀ (factors : String → ℚ) (s : TradingState) (symbol : String) (st : Stock),
        lookupA symbol (update_stock_prices factors s).stocks = some st →
        1 ≤ st.current_price ∧ st.current_price ≤ 100) := by
  constructor
  · intro s symbol name price quantity st hnone hsome
    unfold register_stock at hsome
    rw [hnone] at hsome
    dsimp only at hsome
    rw [lookupA_append_right _ _ _ hnone] at hsome
    cases hsome
    exact clamp_price_bounds price
  · intro factors s symbol st hsome
    unfold update_stock_prices at hsome
    dsimp only at hsome
    rw [lookupA_tick factors s.stocks symbol] at hsome
    cases hlk : lookupA symbol s.stocks with
    | none => rw [hlk] at hsome; simp at hsome
    | some v =>
      rw [hlk] at hsome
      simp only [Option.map_some'] at hsome
      cases hsome
      exact clamp_price_bounds _

/-- Witness for C4 amended: registering a fresh stock at out-of-range price
150 stores price 100, which the theorem bounds into [1, 100]. -/
theorem price_bound_after_mutation_witness :
    (1 : ℚ) ≤ (Stock.mk "ZCorp" 100 5).current_price ∧
        (Stock.mk "ZCorp" 100 5).current_price ≤ 100 :=
  price_bound_after_mutation.1 emptyState "ZZZ" "ZCorp" 150 5 ⟨"ZCorp", 100, 5⟩ rfl
    (by norm_num [register_stock, emptyState, lookupA])

/-- C8: the report query's double LEFT JOIN fans out: with 1 BUY transaction
of quantity 5 and 2 price-history rows, the group has 1×2 joined rows, so
COUNT(t.id) reports 2 (the true transaction count is 1) and the BUY-volume
sum reports 10 (the true total is 5). -/
theorem stock_report_fanout_bug :
    (get_stock_report [⟨"u1", "AAPL", TxnType.BUY, 5, 10, 50⟩] [10, 12]).transaction_count
        = 2 ∧
    ([⟨"u1", "AAPL", TxnType.BUY, 5, 10, 50⟩] : List Txn).length = 1 ∧
    (get_stock_report [⟨"u1", "AAPL", TxnType.BUY, 5, 10, 50⟩] [10, 12]).total_bought
        = 10 ∧
    (([⟨"u1", "AAPL", TxnType.BUY, 5, 10, 50⟩] : List Txn).filter
          (fun t => t.transaction_type = TxnType.BUY)).foldr
        (fun t acc => t.quantity + acc) 0 = 5 := by
  refine ⟨?_, rfl, ?_, ?_⟩ <;> rfl

/-- C10: register_stock never rejects an out-of-range price: on a fresh
symbol it succeeds for every price, storing clamp(price, 1, 100) as the
stock's current_price and as the single appended price-history record; the
only failure cause is a duplicate symbol, which leaves the state unchanged. -/
theorem register_stock_spec (s : TradingState) (symbol name : String) (price : ℚ)
    (quantity : ℤ) :
    (lookupA symbol s.stocks = none →
      (register_stock s symbol name price quantity).1 = RegisterResult.success ∧
      lookupA symbol (register_stock s symbol name price quantity).2.stocks =
          some ⟨name, max 1 (min 100 price), quantity⟩ ∧
      (register_stock s symbol name price quantity).2.history =
          s.history ++ [(symbol, max 1 (min 100 price))]) ∧
    (∀ st : Stock, lookupA symbol s.stocks = some st →
      (register_stock s symbol name price quantity).1 = RegisterResult.alreadyExists ∧
      (register_stock s symbol name price quantity).2 = s) := by
  constructor
  · intro h
    unfold register_stock
    rw [h]
    dsimp only
    exact ⟨rfl, lookupA_append_right _ _ _ h, rfl⟩
  · intro st h
    unfold register_stock
    rw [h]
    exact ⟨rfl, rfl⟩

/-- Witness for C10: registering a fresh symbol with out-of-range price 1/2
succeeds and stores the clamped price 1. -/
theorem register_stock_spec_witness :
    (register_stock emptyState "XYZ" "Xyz Corp." (1 / 2) 10).1 = RegisterResult.success ∧
    lookupA "XYZ" (register_stock emptyState "XYZ" "Xyz Corp." (1 / 2) 10).2.stocks =
        some ⟨"Xyz Corp.", 1, 10⟩ := by
  have h := (register_stock_spec emptyState "XYZ" "Xyz Corp." (1 / 2) 10).1 rfl
  refine ⟨h.1, h.2.1.trans ?_⟩
  norm_num
